import Mathlib

/-!
Shallow embedding of the Fortify Alliances front-end scripts
(`script.js` and `animations.js`): navigation menu controller,
scroll-linked navbar, responsive tabs controller, preload overlay
sequencer, viewport section observer, and the four intersection
animation handlers.  The presence of a CSS class on a DOM element is
modelled as a boolean (for singleton elements such as the nav bar) or
as a finite set of element indices (for element collections such as
the observed section blocks); each event handler becomes a pure
function on that state.  Pixel and ratio quantities are rationals,
matching the exact JS arithmetic on the small decimal literals
involved.
-/

/- ======================================================================
   1. Navigation menu system (`script.js`, toggleMenu / closeMenu)
   ====================================================================== -/

/-- The class state touched by the navigation menu module: presence of
`active` on the hamburger icon, `active` on the overlay panel,
`nav-active` on the nav bar and `menu-open` on the body. -/
structure MenuState where
  hamburgerActive : Bool
  overlayActive : Bool
  navActive : Bool
  bodyMenuOpen : Bool
deriving DecidableEq, Repr

/-- `toggleMenu` from `script.js`: flips each of the four classes with
`classList.toggle`. -/
def toggleMenu (s : MenuState) : MenuState :=
  { hamburgerActive := !s.hamburgerActive
    overlayActive := !s.overlayActive
    navActive := !s.navActive
    bodyMenuOpen := !s.bodyMenuOpen }

/-- `closeMenu` from `script.js`: calls `toggleMenu` only when the
overlay panel currently carries the `active` class. -/
def closeMenu (s : MenuState) : MenuState :=
  if s.overlayActive then toggleMenu s else s

/- ======================================================================
   2. Navbar scroll effects (`script.js`, handleNavbarScroll)
   ====================================================================== -/

/-- `handleNavbarScroll` from `script.js` in the case where the hero
section exists: computes `offsetTop + offsetHeight * 0.5` and returns
whether the nav bar carries `nav-shrink` afterwards (`true` on the
`classList.add` branch, `false` on the `classList.remove` branch).
The decimal literal `0.5` is the rational `mkRat 5 10`. -/
def handleNavbarScroll (offsetTop offsetHeight scrollY : ℚ)
    (navShrink : Bool) : Bool :=
  if scrollY ≥ offsetTop + offsetHeight * mkRat 5 10 then true else false

/-- `handleNavbarScroll` including the guard for a missing hero
section: the first argument is the optional hero geometry
`(offsetTop, offsetHeight)`; the result is the new `nav-shrink` state
paired with whether a console warning was issued. -/
def handleNavbarScrollGuarded (hero : Option (ℚ × ℚ)) (scrollY : ℚ)
    (navShrink : Bool) : Bool × Bool :=
  match hero with
  | none => (navShrink, true)
  | some (t, h) => (handleNavbarScroll t h scrollY navShrink, false)

/- ======================================================================
   3. Services tabs (`script.js`, handleMobileTab and the mode flag)
   ====================================================================== -/

/-- Accordion state of the services tabs: the set of tab indices whose
tab button carries `active`, paired with the set of indices whose
content panel carries `active`. -/
abbrev TabsAccState : Type := Finset ℕ × Finset ℕ

/-- `handleMobileTab` from `script.js`, clicking tab `i`: record
`isOpening` (the tab does not yet carry `active`), strip `active` from
every other tab button and content panel, then either activate or
deactivate the clicked pair according to `isOpening`. -/
def handleMobileTab (s : TabsAccState) (i : ℕ) : TabsAccState :=
  let isOpening := i ∉ s.1
  let closedOthers : TabsAccState :=
    (s.1.filter (fun j => j = i), s.2.filter (fun j => j = i))
  if isOpening then (insert i closedOthers.1, insert i closedOthers.2)
  else (closedOthers.1.erase i, closedOthers.2.erase i)

/-- A sequence of accordion tab clicks, applied in order. -/
def runMobileClicks (s : TabsAccState) (clicks : List ℕ) : TabsAccState :=
  clicks.foldl handleMobileTab s

/-- Number of tab/panel pairs in which both the tab button and its
content panel carry `active`. -/
def activePairs (s : TabsAccState) : ℕ := (s.1 ∩ s.2).card

/-- State of the responsive mode machinery of the tabs module: the
live viewport width (`window.innerWidth`), the stored `isDesktop`
flag, and whether a debounce timer is pending. -/
structure TabsCtl where
  width : ℕ
  isDesktop : Bool
  pendingResize : Bool
deriving DecidableEq, Repr

/-- The debounce delay of the resize listener in `script.js`. -/
def debounceDelayMs : ℕ := 250

/-- A browser resize to width `w`: the resize listener clears any
pending timer and schedules a fresh debounced check; the stored
`isDesktop` flag is not touched here. -/
def resizeTo (s : TabsCtl) (w : ℕ) : TabsCtl :=
  { s with width := w, pendingResize := true }

/-- The debounce timer fires: recompute `isDesktop` from the live
viewport width (`window.innerWidth >= 768`). -/
def debounceFire (s : TabsCtl) : TabsCtl :=
  if s.pendingResize then
    { s with isDesktop := decide (768 ≤ s.width), pendingResize := false }
  else s

/-- The tab click handler's dispatch: `true` means the click is routed
to `handleDesktopTab`, `false` to `handleMobileTab`; the choice reads
the stored `isDesktop` flag, not the live width. -/
def clickDispatch (s : TabsCtl) : Bool := s.isDesktop

/- ======================================================================
   4. Preload overlay (`script.js`, the load listener)
   ====================================================================== -/

/-- The three timed actions scheduled by the preload overlay module. -/
inductive PreloadAction where
  | addFadeOut
  | addHidden
  | removeOverlay
deriving DecidableEq, Repr

/-- The timers scheduled by the load listener: none when the overlay
node is absent, otherwise `fade-out` at +500ms, `hidden` at +800ms and
removal from the document at +1800ms. -/
def preloadTimers (overlayPresent : Bool) : List (ℕ × PreloadAction) :=
  if overlayPresent then
    [(500, PreloadAction.addFadeOut), (800, PreloadAction.addHidden),
     (1800, PreloadAction.removeOverlay)]
  else []

/-- Observable state of the preload overlay node: whether it is still
in the document and whether it carries the `fade-out` and `hidden`
classes. -/
structure OverlayState where
  present : Bool
  fadeOut : Bool
  hidden : Bool
deriving DecidableEq, Repr

/-- Effect of one scheduled preload action on the overlay node. -/
def applyPreloadAction (s : OverlayState) : PreloadAction → OverlayState
  | PreloadAction.addFadeOut => { s with fadeOut := true }
  | PreloadAction.addHidden => { s with hidden := true }
  | PreloadAction.removeOverlay => { s with present := false }

/-- Run a schedule of preload timers in firing order. -/
def runPreload (s : OverlayState) (ts : List (ℕ × PreloadAction)) : OverlayState :=
  ts.foldl (fun st p => applyPreloadAction st p.2) s

/- ======================================================================
   5. Viewport section observer (`script.js`, handleIntersection)
   ====================================================================== -/

/-- One intersection observer entry delivered to the section observer:
the index of the target block, `isIntersecting`, and
`intersectionRatio`. -/
structure VsectEntry where
  target : ℕ
  isIntersecting : Bool
  intersectionRatio : ℚ
deriving DecidableEq, Repr

/-- The visibility-ratio literal `0.7` from `handleIntersection`. -/
def vsectThreshold : ℚ := mkRat 7 10

/-- The branch condition of `handleIntersection`:
`entry.isIntersecting && entry.intersectionRatio > 0.7`. -/
def vsectQualifies (e : VsectEntry) : Bool :=
  e.isIntersecting && decide (vsectThreshold < e.intersectionRatio)

/-- Processing of a single entry, on the set of block indices that
carry `vsect-active`: a qualifying entry removes the class from every
block and then adds it to its own target; any other entry removes the
class from its own target only. -/
def processVsectEntry (active : Finset ℕ) (e : VsectEntry) : Finset ℕ :=
  if vsectQualifies e then {e.target} else active.erase e.target

/-- `handleIntersection` from `script.js`: processes the delivered
entries in order. -/
def handleIntersection (active : Finset ℕ) (entries : List VsectEntry) : Finset ℕ :=
  entries.foldl processVsectEntry active

/-- Number of blocks carrying `vsect-active`. -/
def countVsectActive (active : Finset ℕ) : ℕ := active.card

/- ======================================================================
   6. Animation system (`animations.js`)
   ====================================================================== -/

/-- One intersection observer entry delivered to an animation
observer: the index of the target element and `isIntersecting`. -/
structure AnimEntry where
  target : ℕ
  isIntersecting : Bool
deriving DecidableEq, Repr

/-- State of a one-shot animation observer: the set of element indices
carrying `in-view`, and the set of indices still observed. -/
structure OneShotState where
  inView : Finset ℕ
  observed : Finset ℕ
deriving DecidableEq

/-- `handleAnimateEntries` from `animations.js`: for each intersecting
entry, add `in-view` to the target and unobserve it; non-intersecting
entries are ignored. -/
def handleAnimateEntries (s : OneShotState) (entries : List AnimEntry) : OneShotState :=
  entries.foldl
    (fun st e =>
      if e.isIntersecting then
        { inView := insert e.target st.inView
          observed := st.observed.erase e.target }
      else st) s

/-- `handleLineEntries` from `animations.js`: identical one-shot logic
for the line observer. -/
def handleLineEntries (s : OneShotState) (entries : List AnimEntry) : OneShotState :=
  entries.foldl
    (fun st e =>
      if e.isIntersecting then
        { inView := insert e.target st.inView
          observed := st.observed.erase e.target }
      else st) s

/-- A simulated viewport enter/exit for element `t` against the
one-shot animate observer: the browser delivers an entry only while
`t` is still observed; after `unobserve` no callback fires for it. -/
def animSignal (s : OneShotState) (t : ℕ) (intersecting : Bool) : OneShotState :=
  if t ∈ s.observed then handleAnimateEntries s [⟨t, intersecting⟩] else s

/-- A sequence of simulated enter/exit signals against the one-shot
animate observer. -/
def runAnimSignals (s : OneShotState) (sigs : List (ℕ × Bool)) : OneShotState :=
  sigs.foldl (fun st p => animSignal st p.1 p.2) s

/-- A simulated viewport enter/exit for element `t` against the
one-shot line observer. -/
def lineSignal (s : OneShotState) (t : ℕ) (intersecting : Bool) : OneShotState :=
  if t ∈ s.observed then handleLineEntries s [⟨t, intersecting⟩] else s

/-- A sequence of simulated enter/exit signals against the one-shot
line observer. -/
def runLineSignals (s : OneShotState) (sigs : List (ℕ × Bool)) : OneShotState :=
  sigs.foldl (fun st p => lineSignal st p.1 p.2) s

/-- `handleAnimateRepeatEntries` from `animations.js`, on the set of
element indices carrying `in-view`: intersecting entries gain the
class, non-intersecting entries lose it. -/
def handleAnimateRepeatEntries (inView : Finset ℕ) (entries : List AnimEntry) : Finset ℕ :=
  entries.foldl
    (fun acc e =>
      if e.isIntersecting then insert e.target acc else acc.erase e.target)
    inView

/-- `handleLineRepeatEntries` from `animations.js`: identical
repeatable logic for the line-repeat observer. -/
def handleLineRepeatEntries (inView : Finset ℕ) (entries : List AnimEntry) : Finset ℕ :=
  entries.foldl
    (fun acc e =>
      if e.isIntersecting then insert e.target acc else acc.erase e.target)
    inView

/-- A sequence of repeat-observer callbacks, each reporting element
`t` with the given `isIntersecting` signal. -/
def runAnimateRepeatCallbacks (t : ℕ) (inView : Finset ℕ) (sigs : List Bool) : Finset ℕ :=
  sigs.foldl (fun acc b => handleAnimateRepeatEntries acc [⟨t, b⟩]) inView

/-- A sequence of line-repeat-observer callbacks, each reporting
element `t` with the given `isIntersecting` signal. -/
def runLineRepeatCallbacks (t : ℕ) (inView : Finset ℕ) (sigs : List Bool) : Finset ℕ :=
  sigs.foldl (fun acc b => handleLineRepeatEntries acc [⟨t, b⟩]) inView

/- ======================================================================
   Theorems
   ====================================================================== -/

/-- Claim C4: for the navigation menu controller, `closeMenu` in the
closed state (overlay without `active`) changes none of the four
tracked classes, and `toggleMenu` applied twice from any state
restores all four class states. -/
theorem menu_close_noop_toggle_involutive (s : MenuState) :
    (s.overlayActive = false → closeMenu s = s) ∧ toggleMenu (toggleMenu s) = s := by
  constructor
  · intro h
    simp [closeMenu, h]
  · cases s
    simp [toggleMenu]

/-- Witness for C4 at concrete menu states. -/
theorem menu_close_noop_toggle_involutive_witness :
    closeMenu ⟨false, false, false, false⟩ = ⟨false, false, false, false⟩
  ∧ toggleMenu (toggleMenu ⟨true, false, true, false⟩) = ⟨true, false, true, false⟩ :=
  ⟨(menu_close_noop_toggle_involutive ⟨false, false, false, false⟩).1 rfl,
   (menu_close_noop_toggle_involutive ⟨true, false, true, false⟩).2⟩

/-- Claim C9: `closeMenu` tests only the overlay panel's `active`
class; whenever the overlay lacks it, `closeMenu` leaves the whole
state unchanged, even if the hamburger icon, nav bar or body still
carry their classes, while `toggleMenu` always changes the state. -/
theorem close_reads_only_overlay (s : MenuState) (h : s.overlayActive = false) :
    closeMenu s = s ∧ toggleMenu s ≠ s := by
  constructor
  · simp [closeMenu, h]
  · intro heq
    have h2 := congrArg MenuState.overlayActive heq
    simp [toggleMenu, h] at h2

/-- Witness for C9 at the inconsistent state where only the overlay
lacks its class. -/
theorem close_reads_only_overlay_witness :
    closeMenu ⟨true, false, true, true⟩ = ⟨true, false, true, true⟩
  ∧ toggleMenu ⟨true, false, true, true⟩ ≠ ⟨true, false, true, true⟩ :=
  close_reads_only_overlay ⟨true, false, true, true⟩ rfl

/-- Claim C6: with a hero region of height `H` at offset `T`, a run of
the navbar scroll handler marks the navbar shrunk exactly when the
scroll offset is at least `T + 0.5 * H` and unmarks it strictly below
that threshold, regardless of the previous `nav-shrink` state (no
hysteresis). -/
theorem navbar_shrink_threshold (T H y : ℚ) (b : Bool) :
    (handleNavbarScroll T H y b = true ↔ T + H / 2 ≤ y)
  ∧ (handleNavbarScroll T H y b = false ↔ y < T + H / 2) := by
  have hm : (mkRat 5 10 : ℚ) = 1 / 2 := by
    norm_num [Rat.mkRat_eq_div]
  have harith : T + H * (1 / 2 : ℚ) = T + H / 2 := by ring
  have key : handleNavbarScroll T H y b = decide (T + H / 2 ≤ y) := by
    simp only [handleNavbarScroll, hm, harith, ge_iff_le]
    split_ifs with h
    · simp [h]
    · simp [h]
  rw [key]
  constructor
  · simp
  · simp [not_le]

/-- Claim C8: when the hero region element is absent, the navbar
scroll handler issues a warning and returns, leaving the `nav-shrink`
class exactly as it was. -/
theorem navbar_hero_missing_warns (y : ℚ) (b : Bool) :
    handleNavbarScrollGuarded none y b = (b, true) := rfl

/-- Claim C7: with an overlay node present the load listener schedules
exactly the fade marker at +500ms, the hidden marker at +800ms and the
removal at +1800ms, after which the node is absent; with no overlay
node it schedules no timers. -/
theorem preload_sequence :
    preloadTimers true = [(500, PreloadAction.addFadeOut), (800, PreloadAction.addHidden),
      (1800, PreloadAction.removeOverlay)]
  ∧ runPreload ⟨true, false, false⟩ (preloadTimers true) = ⟨false, true, true⟩
  ∧ preloadTimers false = [] :=
  ⟨rfl, rfl, rfl⟩

/-- Claim C10: a tab click is dispatched on the stored mode flag; a
resize that crosses the 768 breakpoint does not change the flag until
the 250ms debounce fires, so a click in between is handled under the
previous mode and not under the live viewport width; after the
debounce fires, dispatch follows the live width. -/
theorem click_uses_stored_mode (s : TabsCtl) (w : ℕ)
    (hcross : decide (768 ≤ w) ≠ s.isDesktop) :
    clickDispatch (resizeTo s w) = s.isDesktop
  ∧ clickDispatch (resizeTo s w) ≠ decide (768 ≤ (resizeTo s w).width)
  ∧ clickDispatch (debounceFire (resizeTo s w)) = decide (768 ≤ w)
  ∧ debounceDelayMs = 250 := by
  refine ⟨rfl, ?_, ?_, rfl⟩
  · simpa [clickDispatch, resizeTo] using hcross.symm
  · simp [clickDispatch, debounceFire, resizeTo]

/-- Witness for C10: viewport at width 300 in mobile mode, resized to
800. -/
theorem click_uses_stored_mode_witness :
    clickDispatch (resizeTo ⟨300, false, false⟩ 800) = false
  ∧ clickDispatch (resizeTo ⟨300, false, false⟩ 800)
      ≠ decide (768 ≤ (resizeTo ⟨300, false, false⟩ 800).width)
  ∧ clickDispatch (debounceFire (resizeTo ⟨300, false, false⟩ 800)) = decide (768 ≤ 800)
  ∧ debounceDelayMs = 250 :=
  click_uses_stored_mode ⟨300, false, false⟩ 800 (by decide)

/-- A single repeat-observer callback entry for element `t` sets the
`in-view` class exactly to the `isIntersecting` signal. -/
lemma handleAnimateRepeatEntries_singleton (A : Finset ℕ) (t : ℕ) (b : Bool) :
    handleAnimateRepeatEntries A [⟨t, b⟩] = if b then insert t A else A.erase t := by
  cases b <;> simp [handleAnimateRepeatEntries]

/-- A single line-repeat-observer callback entry for element `t` sets
the `in-view` class exactly to the `isIntersecting` signal. -/
lemma handleLineRepeatEntries_singleton (A : Finset ℕ) (t : ℕ) (b : Bool) :
    handleLineRepeatEntries A [⟨t, b⟩] = if b then insert t A else A.erase t := by
  cases b <;> simp [handleLineRepeatEntries]

lemma runAnimateRepeatCallbacks_append (t : ℕ) (A : Finset ℕ) (xs : List Bool) (b : Bool) :
    runAnimateRepeatCallbacks t A (xs ++ [b]) =
      handleAnimateRepeatEntries (runAnimateRepeatCallbacks t A xs) [⟨t, b⟩] := by
  simp [runAnimateRepeatCallbacks, List.foldl_append]

lemma runLineRepeatCallbacks_append (t : ℕ) (A : Finset ℕ) (xs : List Bool) (b : Bool) :
    runLineRepeatCallbacks t A (xs ++ [b]) =
      handleLineRepeatEntries (runLineRepeatCallbacks t A xs) [⟨t, b⟩] := by
  simp [runLineRepeatCallbacks, List.foldl_append]

/-- Claim C2: for a repeatable-mode element, after any sequence of
callbacks the `in-view` class is present exactly when the most recent
callback reported the element as intersecting, from any starting
state and for arbitrarily many enter/exit cycles; this holds for both
the animate-repeat and the line-repeat handlers. -/
theorem repeat_marker_tracks_last (A : Finset ℕ) (t : ℕ) (xs : List Bool) (b : Bool) :
    (t ∈ runAnimateRepeatCallbacks t A (xs ++ [b]) ↔ b = true)
  ∧ (t ∈ runLineRepeatCallbacks t A (xs ++ [b]) ↔ b = true) := by
  constructor
  · rw [runAnimateRepeatCallbacks_append, handleAnimateRepeatEntries_singleton]
    cases b <;> simp
  · rw [runLineRepeatCallbacks_append, handleLineRepeatEntries_singleton]
    cases b <;> simp

/-- Entering view while observed by the one-shot animate observer:
the class is added and the element is unobserved. -/
lemma animSignal_enter (s : OneShotState) (t : ℕ) (h : t ∈ s.observed) :
    animSignal s t true = ⟨insert t s.inView, s.observed.erase t⟩ := by
  simp [animSignal, h, handleAnimateEntries]

/-- Entering view while observed by the one-shot line observer. -/
lemma lineSignal_enter (s : OneShotState) (t : ℕ) (h : t ∈ s.observed) :
    lineSignal s t true = ⟨insert t s.inView, s.observed.erase t⟩ := by
  simp [lineSignal, h, handleLineEntries]

/-- Once element `t` is unobserved by the animate observer, a further
signal for any element leaves its `in-view` class and its unobserved
status untouched. -/
lemma animSignal_frame (st : OneShotState) (t a : ℕ) (b : Bool) (h : t ∉ st.observed) :
    (t ∈ (animSignal st a b).inView ↔ t ∈ st.inView) ∧ t ∉ (animSignal st a b).observed := by
  unfold animSignal
  split_ifs with ha
  · have hta : t ≠ a := fun he => h (he ▸ ha)
    cases b
    · simpa [handleAnimateEntries] using h
    · simp [handleAnimateEntries, Finset.mem_insert, Finset.mem_erase, hta, h]
  · exact ⟨Iff.rfl, h⟩

/-- Once element `t` is unobserved by the line observer, a further
signal for any element leaves its `in-view` class and its unobserved
status untouched. -/
lemma lineSignal_frame (st : OneShotState) (t a : ℕ) (b : Bool) (h : t ∉ st.observed) :
    (t ∈ (lineSignal st a b).inView ↔ t ∈ st.inView) ∧ t ∉ (lineSignal st a b).observed := by
  unfold lineSignal
  split_ifs with ha
  · have hta : t ≠ a := fun he => h (he ▸ ha)
    cases b
    · simpa [handleLineEntries] using h
    · simp [handleLineEntries, Finset.mem_insert, Finset.mem_erase, hta, h]
  · exact ⟨Iff.rfl, h⟩

lemma runAnimSignals_frame (t : ℕ) (sigs : List (ℕ × Bool)) (st : OneShotState)
    (h : t ∉ st.observed) :
    (t ∈ (runAnimSignals st sigs).inView ↔ t ∈ st.inView)
  ∧ t ∉ (runAnimSignals st sigs).observed := by
  induction sigs generalizing st with
  | nil => exact ⟨Iff.rfl, h⟩
  | cons p tl ih =>
      have hstep := animSignal_frame st t p.1 p.2 h
      have hrun := ih (animSignal st p.1 p.2) hstep.2
      have hcons : runAnimSignals st (p :: tl) = runAnimSignals (animSignal st p.1 p.2) tl := by
        simp [runAnimSignals]
      rw [hcons]
      exact ⟨hrun.1.trans hstep.1, hrun.2⟩

lemma runLineSignals_frame (t : ℕ) (sigs : List (ℕ × Bool)) (st : OneShotState)
    (h : t ∉ st.observed) :
    (t ∈ (runLineSignals st sigs).inView ↔ t ∈ st.inView)
  ∧ t ∉ (runLineSignals st sigs).observed := by
  induction sigs generalizing st with
  | nil => exact ⟨Iff.rfl, h⟩
  | cons p tl ih =>
      have hstep := lineSignal_frame st t p.1 p.2 h
      have hrun := ih (lineSignal st p.1 p.2) hstep.2
      have hcons : runLineSignals st (p :: tl) = runLineSignals (lineSignal st p.1 p.2) tl := by
        simp [runLineSignals]
      rw [hcons]
      exact ⟨hrun.1.trans hstep.1, hrun.2⟩

/-- Claim C5: for a one-shot-mode element, the intersecting callback
adds the `in-view` class and unobserves the element, and afterwards no
sequence of simulated viewport exits and re-entries ever removes or
re-adds the class or re-observes the element; this holds for both the
animate and the line one-shot handlers. -/
theorem oneshot_latch (s : OneShotState) (t : ℕ) (sigs : List (ℕ × Bool))
    (h : t ∈ s.observed) :
    (t ∈ (animSignal s t true).inView ∧ t ∉ (animSignal s t true).observed
      ∧ t ∈ (runAnimSignals (animSignal s t true) sigs).inView
      ∧ t ∉ (runAnimSignals (animSignal s t true) sigs).observed)
  ∧ (t ∈ (lineSignal s t true).inView ∧ t ∉ (lineSignal s t true).observed
      ∧ t ∈ (runLineSignals (lineSignal s t true) sigs).inView
      ∧ t ∉ (runLineSignals (lineSignal s t true) sigs).observed) := by
  constructor
  · rw [animSignal_enter s t h]
    have hin : t ∈ insert t s.inView := Finset.mem_insert_self t s.inView
    have hout : t ∉ s.observed.erase t := Finset.not_mem_erase t s.observed
    have hframe := runAnimSignals_frame t sigs ⟨insert t s.inView, s.observed.erase t⟩ hout
    exact ⟨hin, hout, hframe.1.mpr hin, hframe.2⟩
  · rw [lineSignal_enter s t h]
    have hin : t ∈ insert t s.inView := Finset.mem_insert_self t s.inView
    have hout : t ∉ s.observed.erase t := Finset.not_mem_erase t s.observed
    have hframe := runLineSignals_frame t sigs ⟨insert t s.inView, s.observed.erase t⟩ hout
    exact ⟨hin, hout, hframe.1.mpr hin, hframe.2⟩

/-- Witness for C5: element 3 enters view once and then exits and
re-enters repeatedly. -/
theorem oneshot_latch_witness :
    (3 ∈ (animSignal ⟨∅, {3}⟩ 3 true).inView
      ∧ 3 ∉ (animSignal ⟨∅, {3}⟩ 3 true).observed
      ∧ 3 ∈ (runAnimSignals (animSignal ⟨∅, {3}⟩ 3 true) [(3, false), (3, true), (3, false)]).inView
      ∧ 3 ∉ (runAnimSignals (animSignal ⟨∅, {3}⟩ 3 true) [(3, false), (3, true), (3, false)]).observed)
  ∧ (3 ∈ (lineSignal ⟨∅, {3}⟩ 3 true).inView
      ∧ 3 ∉ (lineSignal ⟨∅, {3}⟩ 3 true).observed
      ∧ 3 ∈ (runLineSignals (lineSignal ⟨∅, {3}⟩ 3 true) [(3, false), (3, true), (3, false)]).inView
      ∧ 3 ∉ (runLineSignals (lineSignal ⟨∅, {3}⟩ 3 true) [(3, false), (3, true), (3, false)]).observed) :=
  oneshot_latch ⟨∅, {3}⟩ 3 [(3, false), (3, true), (3, false)] (by decide)

lemma insert_filter_eq_singleton (A : Finset ℕ) (i : ℕ) :
    insert i (A.filter (fun j => j = i)) = {i} := by
  ext j
  simp [Finset.mem_filter]

lemma erase_filter_eq_empty (A : Finset ℕ) (i : ℕ) :
    (A.filter (fun j => j = i)).erase i = ∅ := by
  ext j
  simp [Finset.mem_filter, Finset.mem_erase]
  tauto

/-- Clicking a tab that is not yet active activates exactly that
tab/panel pair, whatever the prior state. -/
lemma handleMobileTab_open (s : TabsAccState) (i : ℕ) (h : i ∉ s.1) :
    handleMobileTab s i = ({i}, {i}) := by
  simp only [handleMobileTab]
  rw [if_pos h, insert_filter_eq_singleton s.1 i, insert_filter_eq_singleton s.2 i]

/-- Clicking the currently active tab deactivates everything. -/
lemma handleMobileTab_close (s : TabsAccState) (i : ℕ) (h : i ∈ s.1) :
    handleMobileTab s i = (∅, ∅) := by
  simp only [handleMobileTab]
  rw [if_neg (not_not_intro h), erase_filter_eq_empty s.1 i, erase_filter_eq_empty s.2 i]

lemma activePairs_handleMobileTab (s : TabsAccState) (i : ℕ) :
    activePairs (handleMobileTab s i) ≤ 1 := by
  by_cases h : i ∈ s.1
  · rw [handleMobileTab_close s i h]
    simp [activePairs]
  · rw [handleMobileTab_open s i h]
    simp [activePairs]

lemma activePairs_runMobileClicks (clicks : List ℕ) (s : TabsAccState)
    (h : activePairs s ≤ 1) :
    activePairs (runMobileClicks s clicks) ≤ 1 := by
  induction clicks generalizing s with
  | nil => exact h
  | cons c tl ih =>
      have hcons : runMobileClicks s (c :: tl) = runMobileClicks (handleMobileTab s c) tl := by
        simp [runMobileClicks]
      rw [hcons]
      exact ih (handleMobileTab s c) (activePairs_handleMobileTab s c)

/-- Claim C3: in accordion mode, any nonempty sequence of tab clicks
leaves at most one active tab/panel pair; opening a tab deactivates
every sibling pair and activates exactly the clicked pair; clicking
the currently open tab deactivates everything, opening no
replacement. -/
theorem mobile_tab_exclusive (s : TabsAccState) (i : ℕ) (clicks : List ℕ) :
    (clicks ≠ [] → activePairs (runMobileClicks s clicks) ≤ 1)
  ∧ (i ∉ s.1 → handleMobileTab s i = ({i}, {i})
      ∧ ∀ j, j ≠ i → j ∉ (handleMobileTab s i).1 ∧ j ∉ (handleMobileTab s i).2)
  ∧ (i ∈ s.1 → handleMobileTab s i = (∅, ∅) ∧ activePairs (handleMobileTab s i) = 0) := by
  refine ⟨?_, ?_, ?_⟩
  · intro hne
    cases clicks with
    | nil => exact absurd rfl hne
    | cons c tl =>
        have hcons : runMobileClicks s (c :: tl) = runMobileClicks (handleMobileTab s c) tl := by
          simp [runMobileClicks]
        rw [hcons]
        exact activePairs_runMobileClicks tl (handleMobileTab s c)
          (activePairs_handleMobileTab s c)
  · intro h
    refine ⟨handleMobileTab_open s i h, ?_⟩
    intro j hj
    rw [handleMobileTab_open s i h]
    simp [hj]
  · intro h
    refine ⟨handleMobileTab_close s i h, ?_⟩
    rw [handleMobileTab_close s i h]
    simp [activePairs]

/-- Witness for C3: tab 0 starts open; clicks on tabs 0, 1 and 2 in
sequence, a fresh click on tab 1, and a closing click on tab 0. -/
theorem mobile_tab_exclusive_witness :
    activePairs (runMobileClicks ({0}, {0}) [0, 1, 2]) ≤ 1
  ∧ handleMobileTab ({0}, {0}) 1 = ({1}, {1})
  ∧ handleMobileTab ({0}, {0}) 0 = (∅, ∅) :=
  ⟨(mobile_tab_exclusive ({0}, {0}) 1 [0, 1, 2]).1 (by decide),
   ((mobile_tab_exclusive ({0}, {0}) 1 [0, 1, 2]).2.1 (by decide)).1,
   ((mobile_tab_exclusive ({0}, {0}) 0 [0, 1, 2]).2.2 (by decide)).1⟩

lemma countVsect_processVsectEntry (A : Finset ℕ) (e : VsectEntry)
    (h : countVsectActive A ≤ 1) : countVsectActive (processVsectEntry A e) ≤ 1 := by
  unfold countVsectActive processVsectEntry
  split_ifs
  · simp
  · exact le_trans Finset.card_erase_le h

lemma countVsect_handleIntersection (es : List VsectEntry) (A : Finset ℕ)
    (h : countVsectActive A ≤ 1) : countVsectActive (handleIntersection A es) ≤ 1 := by
  induction es generalizing A with
  | nil => exact h
  | cons e tl ih =>
      have hcons : handleIntersection A (e :: tl) =
          handleIntersection (processVsectEntry A e) tl := by
        simp [handleIntersection]
      rw [hcons]
      exact ih (processVsectEntry A e) (countVsect_processVsectEntry A e h)

/-- With no qualifying entry in the batch, a block carries the marker
afterwards exactly when it carried it before and no entry targeted
it. -/
lemma mem_handleIntersection_no_qualify (es : List VsectEntry) (i : ℕ) :
    ∀ (A : Finset ℕ), (∀ x ∈ es, vsectQualifies x = false) →
      (i ∈ handleIntersection A es ↔ i ∈ A ∧ ∀ x ∈ es, i ≠ x.target) := by
  induction es with
  | nil =>
      intro A _
      simp [handleIntersection]
  | cons e tl ih =>
      intro A hq
      have he : vsectQualifies e = false := hq e (List.mem_cons_self e tl)
      have htl : ∀ x ∈ tl, vsectQualifies x = false :=
        fun x hx => hq x (List.mem_cons_of_mem e hx)
      have hcons : handleIntersection A (e :: tl) =
          handleIntersection (A.erase e.target) tl := by
        simp [handleIntersection, processVsectEntry, he]
      rw [hcons, ih (A.erase e.target) htl]
      simp only [Finset.mem_erase, List.forall_mem_cons]
      tauto

lemma handleIntersection_no_qualify_zero (es : List VsectEntry) (A : Finset ℕ)
    (hq : ∀ x ∈ es, vsectQualifies x = false)
    (hcov : ∀ i ∈ A, ∃ x ∈ es, x.target = i) :
    countVsectActive (handleIntersection A es) = 0 := by
  have hempty : handleIntersection A es = ∅ := by
    rw [Finset.eq_empty_iff_forall_not_mem]
    intro i hi
    rw [mem_handleIntersection_no_qualify es i A hq] at hi
    obtain ⟨x, hx, hxi⟩ := hcov i hi.1
    exact hi.2 x hx hxi.symm
  simp [countVsectActive, hempty]

/-- Claim C1 (amended): processing a batch preserves the at-most-one
invariant of the `vsect-active` marker; a qualifying entry clears the
marker everywhere and then sets it only on its own target; any other
entry removes only its own target's marker; and when no entry in the
batch qualifies, zero blocks carry the marker afterwards provided
every block carrying it beforehand is the target of some entry. -/
theorem vsect_exclusive (A : Finset ℕ) (es : List VsectEntry) (e : VsectEntry) :
    (countVsectActive A ≤ 1 → countVsectActive (handleIntersection A es) ≤ 1)
  ∧ (vsectQualifies e = true → processVsectEntry A e = {e.target})
  ∧ (vsectQualifies e = false → processVsectEntry A e = A.erase e.target)
  ∧ ((∀ x ∈ es, vsectQualifies x = false) → (∀ i ∈ A, ∃ x ∈ es, x.target = i) →
      countVsectActive (handleIntersection A es) = 0) := by
  refine ⟨fun h => countVsect_handleIntersection es A h, ?_, ?_,
    fun hq hcov => handleIntersection_no_qualify_zero es A hq hcov⟩
  · intro h
    simp [processVsectEntry, h]
  · intro h
    simp [processVsectEntry, h]

/-- Witness for C1 at concrete batches: one qualifying entry, one
non-qualifying entry, and a fully covering non-qualifying batch. -/
theorem vsect_exclusive_witness :
    countVsectActive (handleIntersection {0} [(⟨1, true, mkRat 8 10⟩ : VsectEntry)]) ≤ 1
  ∧ processVsectEntry {0} (⟨1, true, mkRat 8 10⟩ : VsectEntry) = {1}
  ∧ processVsectEntry {0} (⟨1, true, mkRat 1 10⟩ : VsectEntry) = ({0} : Finset ℕ).erase 1
  ∧ countVsectActive (handleIntersection {0, 9}
      [(⟨0, false, 0⟩ : VsectEntry), (⟨9, true, mkRat 2 10⟩ : VsectEntry)]) = 0 :=
  ⟨(vsect_exclusive {0} [⟨1, true, mkRat 8 10⟩] ⟨1, true, mkRat 8 10⟩).1 (by decide),
   (vsect_exclusive {0} [] ⟨1, true, mkRat 8 10⟩).2.1 (by decide),
   (vsect_exclusive {0} [] ⟨1, true, mkRat 1 10⟩).2.2.1 (by decide),
   (vsect_exclusive {0, 9} [⟨0, false, 0⟩, ⟨9, true, mkRat 2 10⟩]
      ⟨0, false, 0⟩).2.2.2 (by decide) (by decide)⟩

/-- Counterexample to C1 as stated: block 0 holds the marker (a state
the observer itself produces from the all-inactive state), then a
batch arrives whose only entry targets block 1 with ratio 0.1; no
entry exceeds the 0.7 ratio, yet one block still holds the marker
afterwards, not zero. -/
theorem vsect_zero_claim_cex :
    handleIntersection ∅ [(⟨0, true, mkRat 8 10⟩ : VsectEntry)] = {0}
  ∧ (∀ x ∈ [(⟨1, true, mkRat 1 10⟩ : VsectEntry)], vsectQualifies x = false)
  ∧ handleIntersection {0} [(⟨1, true, mkRat 1 10⟩ : VsectEntry)] = {0}
  ∧ countVsectActive (handleIntersection {0} [(⟨1, true, mkRat 1 10⟩ : VsectEntry)]) ≠ 0 := by
  decide
